import Mathlib

/-!
Verification of `src/convert_image_to_dicom.py`.

The repository is a single Python script that converts a JPEG/PNG image into
a minimal DICOM Secondary Capture file.  The script has one library function,
`create_dicom_from_image`, and a CLI entry point `main`.

Shallow embedding conventions:
* A decoded Pillow image is modelled by `PILImage`: its height, width, and
  the pixel values produced by img.convert to mode L (grayscale) and to mode
  RGB.  `np.array(img).tobytes()` of a C-contiguous array is modelled by the
  row-major flattenings `grayBytes` / `rgbBytes`.
* `pydicom` datasets are modelled as records of the attributes the script
  assigns (`FileMeta`, `DicomDataset`); `generate_uid` is modelled as an
  abstract supply of tokens threaded through the computation (`UidState`),
  advanced once per call, in source order.
* `datetime.datetime.now()` is modelled as a `DateTime` value passed in; the
  strftime format codes used by the script are modelled by `fmtDate`
  (codes Y, m, d) and `fmtTime` (codes H, M, S).
* The filesystem side effects (os.makedirs of the parent of the output path,
  Dataset.save_as) are recorded as an explicit list of `FsOp` operations;
  `applyOps` runs them against a map from paths to stored files.
* Python optional string parameters are `Option String`; the Python idiom
  `x or generate_uid()` (which also generates when x is the empty string,
  since the empty string is falsy) is modelled by `pyOrUid`.
-/

namespace ConvertImageToDicom

/-- UID constant `pydicom.uid.ExplicitVRLittleEndian`. -/
def ExplicitVRLittleEndian : String := "1.2.840.10008.1.2.1"

/-- UID constant `pydicom.uid.SecondaryCaptureImageStorage`. -/
def SecondaryCaptureImageStorage : String := "1.2.840.10008.5.1.4.1.1.7"

/-- A decoded Pillow image: `img = Image.open(path)`.  `height`/`width` are the
image dimensions; `pixelL r c` is the 8-bit luminance value at row `r`,
column `c` after `img.convert` to grayscale mode L, and `pixelRGB r c k` the
value of channel `k` after `img.convert` to mode RGB. -/
structure PILImage where
  height : Nat
  width : Nat
  pixelL : Nat → Nat → Nat
  pixelRGB : Nat → Nat → Fin 3 → Nat

/-- Row-major flattening of a `h × w` grid: the model of `arr.tobytes()` for a
C-contiguous 2-dimensional numpy array of shape `(h, w)`. -/
def rowMajor (h w : Nat) (f : Nat → Nat → Nat) : List Nat :=
  (List.range h).flatMap fun r => (List.range w).map fun c => f r c

/-- Row-major, per-pixel interleaved flattening of a `h × w × 3` grid: the model
of `arr.tobytes()` for a C-contiguous numpy array of shape `(h, w, 3)`. -/
def rowMajor3 (h w : Nat) (f : Nat → Nat → Fin 3 → Nat) : List Nat :=
  (List.range h).flatMap fun r =>
    (List.range w).flatMap fun c => [f r c 0, f r c 1, f r c 2]

/-- Bytes of the grayscale-converted image, shape `(height, width)`. -/
def grayBytes (img : PILImage) : List Nat :=
  rowMajor img.height img.width img.pixelL

/-- Bytes of the RGB-converted image, shape `(height, width, 3)`. -/
def rgbBytes (img : PILImage) : List Nat :=
  rowMajor3 img.height img.width img.pixelRGB

/-- A wall-clock instant as returned by `datetime.datetime.now()`. -/
structure DateTime where
  year : Nat
  month : Nat
  day : Nat
  hour : Nat
  minute : Nat
  second : Nat

/-- strftime format code 02d used by codes m, d, H, M, S: decimal, zero-padded
to two digits. -/
def pad2 (n : Nat) : String :=
  if n < 10 then "0" ++ Nat.repr n else Nat.repr n

/-- Model of `now.strftime` with format Ymd: the year in decimal followed by
zero-padded two-digit month and day. -/
def fmtDate (t : DateTime) : String :=
  Nat.repr t.year ++ pad2 t.month ++ pad2 t.day

/-- Model of `now.strftime` with format HMS: zero-padded two-digit hour,
minute and second (24-hour clock). -/
def fmtTime (t : DateTime) : String :=
  pad2 t.hour ++ pad2 t.minute ++ pad2 t.second

/-- Abstract supply of UIDs modelling `pydicom.uid.generate_uid`: `gen` is the
stream of tokens the generator will return and `next` the index of the next
call. -/
structure UidState where
  gen : Nat → String
  next : Nat

/-- One call to `generate_uid()`: returns the next token of the supply. -/
def genUid (st : UidState) : String × UidState :=
  (st.gen st.next, { st with next := st.next + 1 })

/-- The Python idiom `x or generate_uid()` for an optional string parameter
`x`: the supplied value when it is present and non-empty (both `None` and the
empty string are falsy), a freshly generated UID otherwise. -/
def pyOrUid (x : Option String) (st : UidState) : String × UidState :=
  match x with
  | none => genUid st
  | some v => if v = "" then genUid st else (v, st)

/-- The group-0002 file meta information dataset built by the script. -/
structure FileMeta where
  MediaStorageSOPClassUID : String
  MediaStorageSOPInstanceUID : String
  TransferSyntaxUID : String
  ImplementationClassUID : String

/-- The main (non group-0002) dataset attributes assigned by the script,
together with the pydicom encoding flags set on the `FileDataset`. -/
structure DicomDataset where
  PatientName : String
  PatientID : String
  Modality : String
  StudyInstanceUID : String
  SeriesInstanceUID : String
  SOPClassUID : String
  SOPInstanceUID : String
  StudyDate : String
  StudyTime : String
  InstanceCreationDate : String
  InstanceCreationTime : String
  SamplesPerPixel : Nat
  PhotometricInterpretation : String
  Rows : Nat
  Columns : Nat
  PlanarConfiguration : Option Nat
  BitsAllocated : Nat
  BitsStored : Nat
  HighBit : Nat
  PixelRepresentation : Nat
  PixelData : List Nat
  is_little_endian : Bool
  is_implicit_VR : Bool

/-- The whole DICOM file value: 128-byte preamble, file meta header, dataset. -/
structure DicomFile where
  preamble : List Nat
  file_meta : FileMeta
  ds : DicomDataset

/-- Failures of the conversion: `Image.open` raising on a nonexistent or
undecodable input (the DecodeError category of the design). -/
inductive ConvError where
  | decodeError
deriving DecidableEq

/-- Filesystem operations performed by the script, in order:
`os.makedirs(os.path.dirname(os.path.abspath(out_path)) or ".", exist_ok=True)`
and `ds.save_as(out_path, write_like_original=False)`. -/
inductive FsOp where
  | makedirsParent (out_path : String)
  | save (path : String) (file : DicomFile)

/-- Running a list of filesystem operations against a map from paths to stored
files.  Creating directories stores no file; `save` overwrites the entry at
its path. -/
def applyOps (ops : List FsOp) (fs : String → Option DicomFile) :
    String → Option DicomFile :=
  ops.foldl
    (fun acc op =>
      match op with
      | FsOp.makedirsParent _ => acc
      | FsOp.save path file => fun q => if q = path then some file else acc q)
    fs

/-- The keyword parameters of `create_dicom_from_image` with their default
values from the Python signature. -/
structure ConvParams where
  patient_name : String := "ANON^PATIENT"
  patient_id : String := "0000"
  modality : String := "OT"
  study_uid : Option String := none
  series_uid : Option String := none
  sop_instance_uid : Option String := none
  sop_class_uid : String := SecondaryCaptureImageStorage
  make_monochrome : Bool := true

/-- Steps 2-7 of `create_dicom_from_image` (source lines 47-129): mode
selection, file meta construction, dataset attribute assignment, pixel data
packing, and the encoding flags.  `generate_uid` calls are threaded through
`st` in source order: MediaStorageSOPInstanceUID, ImplementationClassUID,
StudyInstanceUID, SeriesInstanceUID. -/
def builtFile (img : PILImage) (p : ConvParams) (now : DateTime)
    (st : UidState) : DicomFile :=
  let photometric := if p.make_monochrome then "MONOCHROME2" else "RGB"
  let samples_per_pixel := if p.make_monochrome then 1 else 3
  let r1 := pyOrUid p.sop_instance_uid st
  let r2 := genUid r1.2
  let file_meta : FileMeta :=
    { MediaStorageSOPClassUID := p.sop_class_uid
      MediaStorageSOPInstanceUID := r1.1
      TransferSyntaxUID := ExplicitVRLittleEndian
      ImplementationClassUID := r2.1 }
  let r3 := pyOrUid p.study_uid r2.2
  let r4 := pyOrUid p.series_uid r3.2
  let ds : DicomDataset :=
    { PatientName := p.patient_name
      PatientID := p.patient_id
      Modality := p.modality
      StudyInstanceUID := r3.1
      SeriesInstanceUID := r4.1
      SOPClassUID := file_meta.MediaStorageSOPClassUID
      SOPInstanceUID := file_meta.MediaStorageSOPInstanceUID
      StudyDate := fmtDate now
      StudyTime := fmtTime now
      InstanceCreationDate := fmtDate now
      InstanceCreationTime := fmtTime now
      SamplesPerPixel := if samples_per_pixel = 1 then 1 else 3
      PhotometricInterpretation := photometric
      Rows := img.height
      Columns := img.width
      PlanarConfiguration := if samples_per_pixel = 1 then none else some 0
      BitsAllocated := 8
      BitsStored := 8
      HighBit := 7
      PixelRepresentation := 0
      PixelData := if samples_per_pixel = 1 then grayBytes img else rgbBytes img
      is_little_endian := true
      is_implicit_VR := false }
  { preamble := List.replicate 128 0, file_meta := file_meta, ds := ds }

/-- The function `create_dicom_from_image`.  `decodeImg` models `Image.open`
over the input filesystem: `none` when the path does not exist or the file
cannot be decoded (Pillow raises), `some img` otherwise.  The result pairs
the outcome with the list of filesystem operations performed on the output
side. -/
def create_dicom_from_image (decodeImg : String → Option PILImage)
    (img_path out_path : String) (p : ConvParams) (now : DateTime)
    (st : UidState) : Except ConvError DicomFile × List FsOp :=
  match decodeImg img_path with
  | none => (Except.error ConvError.decodeError, [])
  | some img =>
      let file := builtFile img p now st
      (Except.ok file, [FsOp.makedirsParent out_path, FsOp.save out_path file])

/-- The CLI arguments of `main` with the argparse defaults of source lines
138-144.  `monochrome` is a store-true flag, so it defaults to false. -/
structure CliArgs where
  input : String
  output : String
  patient : String := "ANON^PATIENT"
  id : String := "0000"
  modality : String := "DX"
  monochrome : Bool := false

/-- The parameters `main` passes to `create_dicom_from_image` (source lines
147-154): patient name, patient id, modality and the monochrome flag come
from the CLI, everything else is left at the function defaults. -/
def mainParams (a : CliArgs) : ConvParams :=
  { patient_name := a.patient
    patient_id := a.id
    modality := a.modality
    make_monochrome := a.monochrome }

/-- The call `main` performs after parsing. -/
def main_call (decodeImg : String → Option PILImage) (a : CliArgs)
    (now : DateTime) (st : UidState) :
    Except ConvError DicomFile × List FsOp :=
  create_dicom_from_image decodeImg a.input a.output (mainParams a) now st

/-! Helper lemmas about the row-major flattenings. -/

theorem rowMajor_length (h w : Nat) (f : Nat → Nat → Nat) :
    (rowMajor h w f).length = h * w := by
  induction h with
  | zero => simp [rowMajor]
  | succ h ih =>
    have hsplit : rowMajor (h + 1) w f = rowMajor h w f ++ (List.range w).map (f h) := by
      simp [rowMajor, List.range_succ]
    rw [hsplit, List.length_append, ih, List.length_map, List.length_range, Nat.succ_mul]

theorem rowMajor_get (w c : Nat) (f : Nat → Nat → Nat) (hc : c < w) :
    ∀ h r, r < h → (rowMajor h w f)[r * w + c]? = some (f r c) := by
  intro h
  induction h with
  | zero => intro r hr; omega
  | succ h ih =>
    intro r hr
    have hsplit : rowMajor (h + 1) w f = rowMajor h w f ++ (List.range w).map (f h) := by
      simp [rowMajor, List.range_succ]
    rw [hsplit]
    rcases Nat.lt_or_ge r h with hlt | hge
    · have hlen : r * w + c < (rowMajor h w f).length := by
        rw [rowMajor_length]
        calc r * w + c < r * w + w := Nat.add_lt_add_left hc _
          _ = (r + 1) * w := by ring
          _ ≤ h * w := Nat.mul_le_mul_right w hlt
      rw [List.getElem?_append_left hlen]
      exact ih r hlt
    · have hr' : r = h := by omega
      subst hr'
      have hlen : (rowMajor r w f).length ≤ r * w + c := by
        rw [rowMajor_length]; exact Nat.le_add_right _ _
      rw [List.getElem?_append_right hlen, rowMajor_length,
        Nat.add_sub_cancel_left, List.getElem?_map]
      simp [List.getElem?_range, hc]

theorem row3_length (w : Nat) (g : Nat → Fin 3 → Nat) :
    ((List.range w).flatMap fun c => [g c 0, g c 1, g c 2]).length = w * 3 := by
  induction w with
  | zero => simp
  | succ w ih =>
    rw [List.range_succ, List.flatMap_append, List.length_append, ih]
    simp [Nat.succ_mul]

theorem row3_get (w c : Nat) (g : Nat → Fin 3 → Nat) (hc : c < w) (k : Fin 3) :
    ((List.range w).flatMap fun c => [g c 0, g c 1, g c 2])[c * 3 + k.val]? =
      some (g c k) := by
  induction w with
  | zero => omega
  | succ w ih =>
    rw [List.range_succ, List.flatMap_append]
    rcases Nat.lt_or_ge c w with hlt | hge
    · have hlen : c * 3 + k.val <
          ((List.range w).flatMap fun c => [g c 0, g c 1, g c 2]).length := by
        rw [row3_length]
        have := k.isLt
        omega
      rw [List.getElem?_append_left hlen]
      exact ih hlt
    · have hc' : c = w := by omega
      subst hc'
      have hlen : ((List.range c).flatMap fun c => [g c 0, g c 1, g c 2]).length ≤
          c * 3 + k.val := by
        rw [row3_length]; exact Nat.le_add_right _ _
      rw [List.getElem?_append_right hlen, row3_length, Nat.add_sub_cancel_left]
      fin_cases k <;> rfl

theorem rowMajor3_length (h w : Nat) (f : Nat → Nat → Fin 3 → Nat) :
    (rowMajor3 h w f).length = h * w * 3 := by
  induction h with
  | zero => simp [rowMajor3]
  | succ h ih =>
    have hsplit : rowMajor3 (h + 1) w f =
        rowMajor3 h w f ++ ((List.range w).flatMap fun c => [f h c 0, f h c 1, f h c 2]) := by
      simp [rowMajor3, List.range_succ]
    rw [hsplit, List.length_append, ih, row3_length]
    ring

theorem rowMajor3_get (w c : Nat) (f : Nat → Nat → Fin 3 → Nat) (hc : c < w) (k : Fin 3) :
    ∀ h r, r < h → (rowMajor3 h w f)[(r * w + c) * 3 + k.val]? = some (f r c k) := by
  intro h
  induction h with
  | zero => intro r hr; omega
  | succ h ih =>
    intro r hr
    have hsplit : rowMajor3 (h + 1) w f =
        rowMajor3 h w f ++ ((List.range w).flatMap fun c => [f h c 0, f h c 1, f h c 2]) := by
      simp [rowMajor3, List.range_succ]
    rw [hsplit]
    rcases Nat.lt_or_ge r h with hlt | hge
    · have hcell : r * w + c < h * w := by
        calc r * w + c < r * w + w := Nat.add_lt_add_left hc _
          _ = (r + 1) * w := by ring
          _ ≤ h * w := Nat.mul_le_mul_right w hlt
      have hlen : (r * w + c) * 3 + k.val < (rowMajor3 h w f).length := by
        rw [rowMajor3_length]
        have := k.isLt
        omega
      rw [List.getElem?_append_left hlen]
      exact ih r hlt
    · have hr' : r = h := by omega
      subst hr'
      have hlen : (rowMajor3 r w f).length ≤ (r * w + c) * 3 + k.val := by
        rw [rowMajor3_length]
        have h1 : r * w * 3 ≤ (r * w + c) * 3 := by
          have : r * w ≤ r * w + c := Nat.le_add_right _ _
          exact Nat.mul_le_mul_right 3 this
        omega
      rw [List.getElem?_append_right hlen, rowMajor3_length]
      have hidx : (r * w + c) * 3 + k.val - r * w * 3 = c * 3 + k.val := by
        have hdist : (r * w + c) * 3 = r * w * 3 + c * 3 := by ring
        omega
      rw [hidx]
      exact row3_get w c (fun c k => f r c k) hc k

theorem rowMajor_eq_nil (h w : Nat) (f : Nat → Nat → Nat) (hdeg : h = 0 ∨ w = 0) :
    rowMajor h w f = [] := by
  rw [← List.length_eq_zero, rowMajor_length]
  rcases hdeg with h0 | h0 <;> simp [h0]

theorem rowMajor3_eq_nil (h w : Nat) (f : Nat → Nat → Fin 3 → Nat) (hdeg : h = 0 ∨ w = 0) :
    rowMajor3 h w f = [] := by
  rw [← List.length_eq_zero, rowMajor3_length]
  rcases hdeg with h0 | h0 <;> simp [h0]

/-! Helper lemmas about decimal representation lengths. -/

theorem toDigitsCore_length_exact :
    ∀ e f n, n < f → 10 ^ e ≤ n → n < 10 ^ (e + 1) →
      (Nat.toDigitsCore 10 f n []).length = e + 1 := by
  intro e
  induction e with
  | zero =>
    intro f n hf h1 h2
    cases f with
    | zero => omega
    | succ f =>
      have hn10 : n < 10 := by
        have : (10 : ℕ) ^ (0 + 1) = 10 := by norm_num
        omega
      have hdiv : n / 10 = 0 := Nat.div_eq_of_lt hn10
      simp [Nat.toDigitsCore, hdiv]
  | succ e ih =>
    intro f n hf h1 h2
    cases f with
    | zero => omega
    | succ f =>
      have h10 : 10 ≤ n := by
        have hle : (10 : ℕ) ≤ 10 ^ (e + 1) := by
          calc (10 : ℕ) = 10 ^ 1 := (pow_one 10).symm
            _ ≤ 10 ^ (e + 1) := Nat.pow_le_pow_right (by norm_num) (by omega)
        omega
      have hdiv : ¬ n / 10 = 0 := by
        intro h0
        have := (Nat.div_eq_zero_iff (by norm_num : 0 < 10)).mp h0
        omega
      have hstep : Nat.toDigitsCore 10 (f + 1) n [] =
          Nat.toDigitsCore 10 f (n / 10) [Nat.digitChar (n % 10)] := by
        simp [Nat.toDigitsCore, hdiv]
      rw [hstep, Nat.toDigitsCore_lens_eq]
      have hfd : n / 10 < f := by
        have hlt : n / 10 < n := Nat.div_lt_self (by omega) (by norm_num)
        omega
      have hd1 : 10 ^ e ≤ n / 10 := by
        rw [Nat.le_div_iff_mul_le (by norm_num : 0 < 10)]
        calc 10 ^ e * 10 = 10 ^ (e + 1) := (pow_succ 10 e).symm
          _ ≤ n := h1
      have hd2 : n / 10 < 10 ^ (e + 1) := by
        rw [Nat.div_lt_iff_lt_mul (by norm_num : 0 < 10)]
        calc n < 10 ^ (e + 1 + 1) := h2
          _ = 10 ^ (e + 1) * 10 := pow_succ 10 (e + 1)
      rw [ih f (n / 10) hfd hd1 hd2]

theorem repr_length_eq (n e : Nat) (h1 : 10 ^ e ≤ n) (h2 : n < 10 ^ (e + 1)) :
    (Nat.repr n).length = e + 1 := by
  have := toDigitsCore_length_exact e (n + 1) n (Nat.lt_succ_self n) h1 h2
  simpa [Nat.repr, Nat.toDigits, String.length, List.asString] using this

theorem repr_length_one (n : Nat) (h : n < 10) : (Nat.repr n).length = 1 := by
  rcases Nat.eq_zero_or_pos n with h0 | hpos
  · subst h0; rfl
  · have h1 : 10 ^ 0 ≤ n := by simpa using hpos
    have h2 : n < 10 ^ (0 + 1) := by simpa using h
    simpa using repr_length_eq n 0 h1 h2

theorem pad2_length (n : Nat) (h : n < 100) : (pad2 n).length = 2 := by
  unfold pad2
  split
  · next hlt =>
      rw [String.length_append, repr_length_one n hlt]
      rfl
  · next hge =>
      have h1 : 10 ^ 1 ≤ n := by
        have : (10 : ℕ) ^ 1 = 10 := by norm_num
        omega
      have h2 : n < 10 ^ (1 + 1) := by
        have : (10 : ℕ) ^ (1 + 1) = 100 := by norm_num
        omega
      simpa using repr_length_eq n 1 h1 h2

theorem fmtDate_length (t : DateTime) (hy1 : 1000 ≤ t.year) (hy2 : t.year < 10000)
    (hm : t.month < 100) (hd : t.day < 100) : (fmtDate t).length = 8 := by
  have hy : (Nat.repr t.year).length = 4 := by
    have h1 : 10 ^ 3 ≤ t.year := by
      have : (10 : ℕ) ^ 3 = 1000 := by norm_num
      omega
    have h2 : t.year < 10 ^ (3 + 1) := by
      have : (10 : ℕ) ^ (3 + 1) = 10000 := by norm_num
      omega
    simpa using repr_length_eq t.year 3 h1 h2
  unfold fmtDate
  rw [String.length_append, String.length_append, hy, pad2_length _ hm, pad2_length _ hd]

theorem fmtTime_length (t : DateTime) (hh : t.hour < 100) (hm : t.minute < 100)
    (hs : t.second < 100) : (fmtTime t).length = 6 := by
  unfold fmtTime
  rw [String.length_append, String.length_append, pad2_length _ hh,
    pad2_length _ hm, pad2_length _ hs]

/-! Helper lemmas about the UID supply. -/

theorem pyOrUid_gen_eq (x : Option String) (st : UidState) :
    ((pyOrUid x st).2).gen = st.gen := by
  cases x with
  | none => rfl
  | some v =>
      simp only [pyOrUid]
      split <;> rfl

theorem pyOrUid_next_le (x : Option String) (st : UidState) :
    st.next ≤ ((pyOrUid x st).2).next := by
  cases x with
  | none => exact Nat.le_succ _
  | some v =>
      simp only [pyOrUid]
      split
      · exact Nat.le_succ _
      · exact Nat.le_refl _

theorem pyOrUid_supplied (v : String) (hv : v ≠ "") (st : UidState) :
    pyOrUid (some v) st = (v, st) := by
  simp [pyOrUid, hv]

theorem pyOrUid_default (x : Option String) (hx : x = none ∨ x = some "")
    (st : UidState) :
    pyOrUid x st = (st.gen st.next, { st with next := st.next + 1 }) := by
  rcases hx with h | h <;> subst h <;> simp [pyOrUid, genUid]

theorem genUid_gen (st : UidState) : (genUid st).2.gen = st.gen := rfl

theorem genUid_next (st : UidState) : (genUid st).2.next = st.next + 1 := rfl

/-- On a decodable input the conversion returns the built file and performs
exactly the makedirs and save operations, in order. -/
theorem create_ok (decodeImg : String → Option PILImage) (img_path out_path : String)
    (p : ConvParams) (now : DateTime) (st : UidState) (img : PILImage)
    (hdec : decodeImg img_path = some img) :
    create_dicom_from_image decodeImg img_path out_path p now st =
      (Except.ok (builtFile img p now st),
        [FsOp.makedirsParent out_path, FsOp.save out_path (builtFile img p now st)]) := by
  unfold create_dicom_from_image
  rw [hdec]

/-! Concrete sample inputs used by the witness theorems. -/

/-- A sample decoded 2-by-3 image. -/
def sampleImg : PILImage :=
  { height := 2, width := 3,
    pixelL := fun r c => r * 3 + c,
    pixelRGB := fun r c k => r * 9 + c * 3 + k.val }

/-- A degenerate decoded image with zero height. -/
def degImg : PILImage :=
  { height := 0, width := 3,
    pixelL := fun _ _ => 0,
    pixelRGB := fun _ _ _ => 0 }

/-- A sample wall-clock instant. -/
def sampleNow : DateTime :=
  { year := 2025, month := 10, day := 12, hour := 13, minute := 59, second := 7 }

/-- A sample UID supply. -/
def sampleSt : UidState :=
  { gen := fun k => "1.2.826.0.1." ++ Nat.repr k, next := 0 }

/-- A decoder for which every path decodes to `sampleImg`. -/
def sampleDecode : String → Option PILImage := fun _ => some sampleImg

/-- A decoder for which every path decodes to the degenerate image. -/
def degDecode : String → Option PILImage := fun _ => some degImg

/-- A decoder for which no path decodes (nonexistent or undecodable input). -/
def noDecode : String → Option PILImage := fun _ => none

/-- C1: with the monochrome flag set, the produced dataset has Rows = height,
Columns = width, SamplesPerPixel = 1, PhotometricInterpretation MONOCHROME2,
no PlanarConfiguration attribute, and a PixelData buffer of exactly
height * width bytes in row-major order. -/
theorem C1_monochrome_output
    (decodeImg : String → Option PILImage) (img_path out_path : String)
    (p : ConvParams) (now : DateTime) (st : UidState) (img : PILImage)
    (hdec : decodeImg img_path = some img) (hm : p.make_monochrome = true) :
    ∃ file : DicomFile,
      (create_dicom_from_image decodeImg img_path out_path p now st).1 = Except.ok file ∧
      file.ds.Rows = img.height ∧
      file.ds.Columns = img.width ∧
      file.ds.SamplesPerPixel = 1 ∧
      file.ds.PhotometricInterpretation = "MONOCHROME2" ∧
      file.ds.PlanarConfiguration = none ∧
      file.ds.PixelData.length = img.height * img.width ∧
      (∀ r c, r < img.height → c < img.width →
        file.ds.PixelData[r * img.width + c]? = some (img.pixelL r c)) := by
  refine ⟨builtFile img p now st, ?_, ?_, ?_, ?_, ?_, ?_, ?_, ?_⟩
  · rw [create_ok decodeImg img_path out_path p now st img hdec]
  · simp [builtFile]
  · simp [builtFile]
  · simp [builtFile, hm]
  · simp [builtFile, hm]
  · simp [builtFile, hm]
  · simp [builtFile, hm, grayBytes, rowMajor_length]
  · intro r c hr hc
    simp only [builtFile, hm, if_true, grayBytes]
    simpa using rowMajor_get img.width c img.pixelL hc img.height r hr

/-- C1 witness: the monochrome theorem applied to the sample image with the
library defaults. -/
theorem C1_monochrome_output_witness :
    ∃ file : DicomFile,
      (create_dicom_from_image sampleDecode "in.png" "out.dcm" {} sampleNow sampleSt).1 =
        Except.ok file ∧
      file.ds.Rows = sampleImg.height ∧
      file.ds.Columns = sampleImg.width ∧
      file.ds.SamplesPerPixel = 1 ∧
      file.ds.PhotometricInterpretation = "MONOCHROME2" ∧
      file.ds.PlanarConfiguration = none ∧
      file.ds.PixelData.length = sampleImg.height * sampleImg.width ∧
      (∀ r c, r < sampleImg.height → c < sampleImg.width →
        file.ds.PixelData[r * sampleImg.width + c]? = some (sampleImg.pixelL r c)) :=
  C1_monochrome_output sampleDecode "in.png" "out.dcm" {} sampleNow sampleSt sampleImg
    rfl rfl

/-- C2: without the monochrome flag, the produced dataset has Rows = height,
Columns = width, SamplesPerPixel = 3, PhotometricInterpretation RGB,
PlanarConfiguration = 0, and a PixelData buffer of exactly
height * width * 3 bytes in per-pixel interleaved (chunky) row-major order. -/
theorem C2_rgb_output
    (decodeImg : String → Option PILImage) (img_path out_path : String)
    (p : ConvParams) (now : DateTime) (st : UidState) (img : PILImage)
    (hdec : decodeImg img_path = some img) (hm : p.make_monochrome = false) :
    ∃ file : DicomFile,
      (create_dicom_from_image decodeImg img_path out_path p now st).1 = Except.ok file ∧
      file.ds.Rows = img.height ∧
      file.ds.Columns = img.width ∧
      file.ds.SamplesPerPixel = 3 ∧
      file.ds.PhotometricInterpretation = "RGB" ∧
      file.ds.PlanarConfiguration = some 0 ∧
      file.ds.PixelData.length = img.height * img.width * 3 ∧
      (∀ r c (k : Fin 3), r < img.height → c < img.width →
        file.ds.PixelData[(r * img.width + c) * 3 + k.val]? = some (img.pixelRGB r c k)) := by
  refine ⟨builtFile img p now st, ?_, ?_, ?_, ?_, ?_, ?_, ?_, ?_⟩
  · rw [create_ok decodeImg img_path out_path p now st img hdec]
  · simp [builtFile]
  · simp [builtFile]
  · simp [builtFile, hm]
  · simp [builtFile, hm]
  · simp [builtFile, hm]
  · simp [builtFile, hm, rgbBytes, rowMajor3_length]
  · intro r c k hr hc
    simp only [builtFile, hm, if_false, rgbBytes]
    simpa using rowMajor3_get img.width c img.pixelRGB hc k img.height r hr

/-- C2 witness: the RGB theorem applied to the sample image. -/
theorem C2_rgb_output_witness :
    ∃ file : DicomFile,
      (create_dicom_from_image sampleDecode "in.png" "out.dcm"
        { make_monochrome := false } sampleNow sampleSt).1 = Except.ok file ∧
      file.ds.Rows = sampleImg.height ∧
      file.ds.Columns = sampleImg.width ∧
      file.ds.SamplesPerPixel = 3 ∧
      file.ds.PhotometricInterpretation = "RGB" ∧
      file.ds.PlanarConfiguration = some 0 ∧
      file.ds.PixelData.length = sampleImg.height * sampleImg.width * 3 ∧
      (∀ r c (k : Fin 3), r < sampleImg.height → c < sampleImg.width →
        file.ds.PixelData[(r * sampleImg.width + c) * 3 + k.val]? =
          some (sampleImg.pixelRGB r c k)) :=
  C2_rgb_output sampleDecode "in.png" "out.dcm" { make_monochrome := false }
    sampleNow sampleSt sampleImg rfl rfl

/-- C3: the dataset encoding flags always agree with the transfer syntax
declared in the file meta header: the declared TransferSyntaxUID is Explicit
VR Little Endian and the dataset is written little-endian, explicit VR. -/
theorem C3_transfer_syntax_consistent
    (decodeImg : String → Option PILImage) (img_path out_path : String)
    (p : ConvParams) (now : DateTime) (st : UidState) (img : PILImage)
    (hdec : decodeImg img_path = some img) :
    ∃ file : DicomFile,
      (create_dicom_from_image decodeImg img_path out_path p now st).1 = Except.ok file ∧
      file.file_meta.TransferSyntaxUID = ExplicitVRLittleEndian ∧
      file.ds.is_little_endian = true ∧
      file.ds.is_implicit_VR = false := by
  refine ⟨builtFile img p now st, ?_, ?_, ?_, ?_⟩
  · rw [create_ok decodeImg img_path out_path p now st img hdec]
  · simp [builtFile]
  · simp [builtFile]
  · simp [builtFile]

/-- C3 witness: the transfer syntax consistency theorem at the sample input. -/
theorem C3_transfer_syntax_consistent_witness :
    ∃ file : DicomFile,
      (create_dicom_from_image sampleDecode "in.png" "out.dcm" {} sampleNow sampleSt).1 =
        Except.ok file ∧
      file.file_meta.TransferSyntaxUID = ExplicitVRLittleEndian ∧
      file.ds.is_little_endian = true ∧
      file.ds.is_implicit_VR = false :=
  C3_transfer_syntax_consistent sampleDecode "in.png" "out.dcm" {} sampleNow sampleSt
    sampleImg rfl

/-- C4: for every conversion, regardless of the input image and all caller
parameters, the dataset has BitsAllocated = 8, BitsStored = 8, HighBit = 7
and PixelRepresentation = 0. -/
theorem C4_fixed_bit_attributes
    (decodeImg : String → Option PILImage) (img_path out_path : String)
    (p : ConvParams) (now : DateTime) (st : UidState) (img : PILImage)
    (hdec : decodeImg img_path = some img) :
    ∃ file : DicomFile,
      (create_dicom_from_image decodeImg img_path out_path p now st).1 = Except.ok file ∧
      file.ds.BitsAllocated = 8 ∧
      file.ds.BitsStored = 8 ∧
      file.ds.HighBit = 7 ∧
      file.ds.PixelRepresentation = 0 := by
  refine ⟨builtFile img p now st, ?_, ?_, ?_, ?_, ?_⟩
  · rw [create_ok decodeImg img_path out_path p now st img hdec]
  · simp [builtFile]
  · simp [builtFile]
  · simp [builtFile]
  · simp [builtFile]

/-- C4 witness: the fixed bit attributes theorem at the sample input. -/
theorem C4_fixed_bit_attributes_witness :
    ∃ file : DicomFile,
      (create_dicom_from_image sampleDecode "in.png" "out.dcm" {} sampleNow sampleSt).1 =
        Except.ok file ∧
      file.ds.BitsAllocated = 8 ∧
      file.ds.BitsStored = 8 ∧
      file.ds.HighBit = 7 ∧
      file.ds.PixelRepresentation = 0 :=
  C4_fixed_bit_attributes sampleDecode "in.png" "out.dcm" {} sampleNow sampleSt
    sampleImg rfl

/-- C5: all four timestamp attributes come from the single captured instant:
StudyDate equals InstanceCreationDate (the 8-digit date of the instant) and
StudyTime equals InstanceCreationTime (the zero-padded 6-digit 24-hour time
of the instant).  The bounds express a valid wall-clock reading. -/
theorem C5_timestamps
    (decodeImg : String → Option PILImage) (img_path out_path : String)
    (p : ConvParams) (now : DateTime) (st : UidState) (img : PILImage)
    (hdec : decodeImg img_path = some img)
    (hy1 : 1000 ≤ now.year) (hy2 : now.year < 10000)
    (hmo : now.month < 100) (hd : now.day < 100)
    (hh : now.hour < 100) (hmi : now.minute < 100) (hs : now.second < 100) :
    ∃ file : DicomFile,
      (create_dicom_from_image decodeImg img_path out_path p now st).1 = Except.ok file ∧
      file.ds.StudyDate = fmtDate now ∧
      file.ds.InstanceCreationDate = fmtDate now ∧
      file.ds.StudyTime = fmtTime now ∧
      file.ds.InstanceCreationTime = fmtTime now ∧
      file.ds.StudyDate = file.ds.InstanceCreationDate ∧
      file.ds.StudyTime = file.ds.InstanceCreationTime ∧
      file.ds.StudyDate.length = 8 ∧
      file.ds.StudyTime.length = 6 := by
  refine ⟨builtFile img p now st, ?_, ?_, ?_, ?_, ?_, ?_, ?_, ?_, ?_⟩
  · rw [create_ok decodeImg img_path out_path p now st img hdec]
  · simp [builtFile]
  · simp [builtFile]
  · simp [builtFile]
  · simp [builtFile]
  · simp [builtFile]
  · simp [builtFile]
  · simp only [builtFile]
    exact fmtDate_length now hy1 hy2 hmo hd
  · simp only [builtFile]
    exact fmtTime_length now hh hmi hs

/-- C5 witness: the timestamp theorem at the sample instant. -/
theorem C5_timestamps_witness :
    ∃ file : DicomFile,
      (create_dicom_from_image sampleDecode "in.png" "out.dcm" {} sampleNow sampleSt).1 =
        Except.ok file ∧
      file.ds.StudyDate = fmtDate sampleNow ∧
      file.ds.InstanceCreationDate = fmtDate sampleNow ∧
      file.ds.StudyTime = fmtTime sampleNow ∧
      file.ds.InstanceCreationTime = fmtTime sampleNow ∧
      file.ds.StudyDate = file.ds.InstanceCreationDate ∧
      file.ds.StudyTime = file.ds.InstanceCreationTime ∧
      file.ds.StudyDate.length = 8 ∧
      file.ds.StudyTime.length = 6 :=
  C5_timestamps sampleDecode "in.png" "out.dcm" {} sampleNow sampleSt sampleImg rfl
    (by decide) (by decide) (by decide) (by decide) (by decide) (by decide) (by decide)

/-- C6: each of the study, series and instance identifiers is used verbatim
when supplied non-empty and freshly generated when absent or empty; the
implementation identifier, for which the caller can supply nothing, is always
freshly generated.  Generated tokens are values of the UID supply at indices
not yet consumed. -/
theorem C6_identifier_policy
    (decodeImg : String → Option PILImage) (img_path out_path : String)
    (p : ConvParams) (now : DateTime) (st : UidState) (img : PILImage)
    (hdec : decodeImg img_path = some img) :
    ∃ file : DicomFile,
      (create_dicom_from_image decodeImg img_path out_path p now st).1 = Except.ok file ∧
      (∀ s, p.study_uid = some s → s ≠ "" → file.ds.StudyInstanceUID = s) ∧
      ((p.study_uid = none ∨ p.study_uid = some "") →
        ∃ k, st.next ≤ k ∧ file.ds.StudyInstanceUID = st.gen k) ∧
      (∀ s, p.series_uid = some s → s ≠ "" → file.ds.SeriesInstanceUID = s) ∧
      ((p.series_uid = none ∨ p.series_uid = some "") →
        ∃ k, st.next ≤ k ∧ file.ds.SeriesInstanceUID = st.gen k) ∧
      (∀ s, p.sop_instance_uid = some s → s ≠ "" →
        file.ds.SOPInstanceUID = s ∧ file.file_meta.MediaStorageSOPInstanceUID = s) ∧
      ((p.sop_instance_uid = none ∨ p.sop_instance_uid = some "") →
        ∃ k, st.next ≤ k ∧ file.ds.SOPInstanceUID = st.gen k ∧
          file.file_meta.MediaStorageSOPInstanceUID = st.gen k) ∧
      (∃ k, st.next ≤ k ∧ file.file_meta.ImplementationClassUID = st.gen k) := by
  refine ⟨builtFile img p now st, ?_, ?_, ?_, ?_, ?_, ?_, ?_, ?_⟩
  · rw [create_ok decodeImg img_path out_path p now st img hdec]
  · intro s hs hne
    simp only [builtFile, genUid]
    rw [hs, pyOrUid_supplied s hne]
  · intro hx
    simp only [builtFile, genUid]
    rw [pyOrUid_default _ hx]
    exact ⟨((pyOrUid p.sop_instance_uid st).2).next + 1,
      le_trans (pyOrUid_next_le _ _) (Nat.le_succ _),
      by simp [pyOrUid_gen_eq]⟩
  · intro s hs hne
    simp only [builtFile, genUid]
    rw [hs, pyOrUid_supplied s hne]
  · intro hx
    simp only [builtFile, genUid]
    rw [pyOrUid_default _ hx]
    refine ⟨((pyOrUid p.study_uid
        { gen := ((pyOrUid p.sop_instance_uid st).2).gen,
          next := ((pyOrUid p.sop_instance_uid st).2).next + 1 }).2).next, ?_, ?_⟩
    · calc st.next ≤ ((pyOrUid p.sop_instance_uid st).2).next := pyOrUid_next_le _ _
        _ ≤ ((pyOrUid p.sop_instance_uid st).2).next + 1 := Nat.le_succ _
        _ ≤ _ := pyOrUid_next_le p.study_uid
          { gen := ((pyOrUid p.sop_instance_uid st).2).gen,
            next := ((pyOrUid p.sop_instance_uid st).2).next + 1 }
    · simp [pyOrUid_gen_eq]
  · intro s hs hne
    simp only [builtFile, genUid]
    rw [hs, pyOrUid_supplied s hne]
    exact ⟨rfl, rfl⟩
  · intro hx
    simp only [builtFile, genUid]
    rw [pyOrUid_default _ hx]
    exact ⟨st.next, Nat.le_refl _, rfl, rfl⟩
  · simp only [builtFile, genUid]
    exact ⟨((pyOrUid p.sop_instance_uid st).2).next, pyOrUid_next_le _ _,
      by simp [pyOrUid_gen_eq]⟩

/-- C6 witness: the identifier policy theorem at the sample input with a
supplied study UID and defaulted series and instance UIDs. -/
theorem C6_identifier_policy_witness :
    ∃ file : DicomFile,
      (create_dicom_from_image sampleDecode "in.png" "out.dcm"
        { study_uid := some "1.2.3.4" } sampleNow sampleSt).1 = Except.ok file ∧
      (∀ s, ({ study_uid := some "1.2.3.4" } : ConvParams).study_uid = some s → s ≠ "" →
        file.ds.StudyInstanceUID = s) ∧
      ((({ study_uid := some "1.2.3.4" } : ConvParams).study_uid = none ∨
          ({ study_uid := some "1.2.3.4" } : ConvParams).study_uid = some "") →
        ∃ k, sampleSt.next ≤ k ∧ file.ds.StudyInstanceUID = sampleSt.gen k) ∧
      (∀ s, ({ study_uid := some "1.2.3.4" } : ConvParams).series_uid = some s → s ≠ "" →
        file.ds.SeriesInstanceUID = s) ∧
      ((({ study_uid := some "1.2.3.4" } : ConvParams).series_uid = none ∨
          ({ study_uid := some "1.2.3.4" } : ConvParams).series_uid = some "") →
        ∃ k, sampleSt.next ≤ k ∧ file.ds.SeriesInstanceUID = sampleSt.gen k) ∧
      (∀ s, ({ study_uid := some "1.2.3.4" } : ConvParams).sop_instance_uid = some s →
        s ≠ "" →
        file.ds.SOPInstanceUID = s ∧ file.file_meta.MediaStorageSOPInstanceUID = s) ∧
      ((({ study_uid := some "1.2.3.4" } : ConvParams).sop_instance_uid = none ∨
          ({ study_uid := some "1.2.3.4" } : ConvParams).sop_instance_uid = some "") →
        ∃ k, sampleSt.next ≤ k ∧ file.ds.SOPInstanceUID = sampleSt.gen k ∧
          file.file_meta.MediaStorageSOPInstanceUID = sampleSt.gen k) ∧
      (∃ k, sampleSt.next ≤ k ∧ file.file_meta.ImplementationClassUID = sampleSt.gen k) :=
  C6_identifier_policy sampleDecode "in.png" "out.dcm" { study_uid := some "1.2.3.4" }
    sampleNow sampleSt sampleImg rfl

/-- C7 counterexample: on a decoded image with zero rows the conversion does
not fail; it succeeds (there is no InvalidImageError anywhere in the code)
and still performs the output filesystem operations, producing a dataset
with Rows = 0. -/
theorem C7_counterexample :
    (create_dicom_from_image degDecode "zero.png" "zero.dcm" {} sampleNow sampleSt).1 =
      Except.ok (builtFile degImg {} sampleNow sampleSt) ∧
    (create_dicom_from_image degDecode "zero.png" "zero.dcm" {} sampleNow sampleSt).2 =
      [FsOp.makedirsParent "zero.dcm",
        FsOp.save "zero.dcm" (builtFile degImg {} sampleNow sampleSt)] ∧
    (builtFile degImg {} sampleNow sampleSt).ds.Rows = 0 :=
  ⟨rfl, rfl, rfl⟩

/-- C7 amended: a degenerate decoded image (zero rows or zero columns) is not
rejected; the conversion succeeds, writes the output file, and the dataset
records the degenerate dimensions with an empty PixelData buffer. -/
theorem C7_degenerate_accepted
    (decodeImg : String → Option PILImage) (img_path out_path : String)
    (p : ConvParams) (now : DateTime) (st : UidState) (img : PILImage)
    (hdec : decodeImg img_path = some img)
    (hdeg : img.height = 0 ∨ img.width = 0) :
    ∃ file : DicomFile,
      create_dicom_from_image decodeImg img_path out_path p now st =
        (Except.ok file, [FsOp.makedirsParent out_path, FsOp.save out_path file]) ∧
      file.ds.Rows = img.height ∧
      file.ds.Columns = img.width ∧
      file.ds.PixelData = [] := by
  refine ⟨builtFile img p now st,
    create_ok decodeImg img_path out_path p now st img hdec, ?_, ?_, ?_⟩
  · simp [builtFile]
  · simp [builtFile]
  · by_cases hmono : p.make_monochrome
    · simp [builtFile, hmono, grayBytes, rowMajor_eq_nil _ _ _ hdeg]
    · simp [builtFile, hmono, rgbBytes, rowMajor3_eq_nil _ _ _ hdeg]

/-- C7 amended witness: the degenerate image theorem at the zero-height
sample. -/
theorem C7_degenerate_accepted_witness :
    ∃ file : DicomFile,
      create_dicom_from_image degDecode "zero.png" "zero.dcm" {} sampleNow sampleSt =
        (Except.ok file,
          [FsOp.makedirsParent "zero.dcm", FsOp.save "zero.dcm" file]) ∧
      file.ds.Rows = degImg.height ∧
      file.ds.Columns = degImg.width ∧
      file.ds.PixelData = [] :=
  C7_degenerate_accepted degDecode "zero.png" "zero.dcm" {} sampleNow sampleSt degImg
    rfl (Or.inl rfl)

/-- C8: when the input path does not decode (nonexistent or undecodable
file), the conversion fails with the decode error, performs no filesystem
operation, and every filesystem state is left unchanged. -/
theorem C8_decode_failure_atomic
    (decodeImg : String → Option PILImage) (img_path out_path : String)
    (p : ConvParams) (now : DateTime) (st : UidState)
    (fs : String → Option DicomFile)
    (hdec : decodeImg img_path = none) :
    (create_dicom_from_image decodeImg img_path out_path p now st).1 =
      Except.error ConvError.decodeError ∧
    (create_dicom_from_image decodeImg img_path out_path p now st).2 = [] ∧
    applyOps (create_dicom_from_image decodeImg img_path out_path p now st).2 fs = fs := by
  have h : create_dicom_from_image decodeImg img_path out_path p now st =
      (Except.error ConvError.decodeError, []) := by
    unfold create_dicom_from_image
    rw [hdec]
  rw [h]
  exact ⟨rfl, rfl, rfl⟩

/-- C8 witness: the decode failure theorem at a decoder that rejects every
path, with an arbitrary concrete pre-existing filesystem. -/
theorem C8_decode_failure_atomic_witness :
    (create_dicom_from_image noDecode "missing.png" "out.dcm" {} sampleNow sampleSt).1 =
      Except.error ConvError.decodeError ∧
    (create_dicom_from_image noDecode "missing.png" "out.dcm" {} sampleNow sampleSt).2 = [] ∧
    applyOps (create_dicom_from_image noDecode "missing.png" "out.dcm" {}
      sampleNow sampleSt).2 (fun _ => none) = (fun _ => none) :=
  C8_decode_failure_atomic noDecode "missing.png" "out.dcm" {} sampleNow sampleSt
    (fun _ => none) rfl

/-- C9: the dataset body always repeats the SOP class and SOP instance UIDs
declared in the file meta header. -/
theorem C9_sop_uids_consistent
    (decodeImg : String → Option PILImage) (img_path out_path : String)
    (p : ConvParams) (now : DateTime) (st : UidState) (img : PILImage)
    (hdec : decodeImg img_path = some img) :
    ∃ file : DicomFile,
      (create_dicom_from_image decodeImg img_path out_path p now st).1 = Except.ok file ∧
      file.ds.SOPClassUID = file.file_meta.MediaStorageSOPClassUID ∧
      file.ds.SOPInstanceUID = file.file_meta.MediaStorageSOPInstanceUID := by
  refine ⟨builtFile img p now st, ?_, ?_, ?_⟩
  · rw [create_ok decodeImg img_path out_path p now st img hdec]
  · simp [builtFile]
  · simp [builtFile]

/-- C9 witness: the SOP UID consistency theorem at the sample input. -/
theorem C9_sop_uids_consistent_witness :
    ∃ file : DicomFile,
      (create_dicom_from_image sampleDecode "in.png" "out.dcm" {} sampleNow sampleSt).1 =
        Except.ok file ∧
      file.ds.SOPClassUID = file.file_meta.MediaStorageSOPClassUID ∧
      file.ds.SOPInstanceUID = file.file_meta.MediaStorageSOPInstanceUID :=
  C9_sop_uids_consistent sampleDecode "in.png" "out.dcm" {} sampleNow sampleSt
    sampleImg rfl

/-- C10: the library defaults are make_monochrome = true and modality OT, so a
call with only the two paths produces MONOCHROME2 and Modality OT, whereas
the CLI defaults are the opposite (RGB, DX), supplied only by `main`. -/
theorem C10_library_vs_cli_defaults
    (decodeImg : String → Option PILImage) (img_path out_path : String)
    (now : DateTime) (st : UidState) (img : PILImage)
    (hdec : decodeImg img_path = some img) :
    ({} : ConvParams).make_monochrome = true ∧
    ({} : ConvParams).modality = "OT" ∧
    (∀ i o, ({ input := i, output := o } : CliArgs).monochrome = false ∧
      ({ input := i, output := o } : CliArgs).modality = "DX") ∧
    (∃ file : DicomFile,
      (create_dicom_from_image decodeImg img_path out_path {} now st).1 = Except.ok file ∧
      file.ds.PhotometricInterpretation = "MONOCHROME2" ∧
      file.ds.Modality = "OT") ∧
    (∃ file : DicomFile,
      (main_call decodeImg { input := img_path, output := out_path } now st).1 =
        Except.ok file ∧
      file.ds.PhotometricInterpretation = "RGB" ∧
      file.ds.Modality = "DX") := by
  refine ⟨rfl, rfl, fun i o => ⟨rfl, rfl⟩, ?_, ?_⟩
  · refine ⟨builtFile img {} now st, ?_, ?_, ?_⟩
    · rw [create_ok decodeImg img_path out_path {} now st img hdec]
    · simp [builtFile, ConvParams.make_monochrome]
    · simp [builtFile]
  · refine ⟨builtFile img (mainParams { input := img_path, output := out_path }) now st,
      ?_, ?_, ?_⟩
    · rw [main_call,
        create_ok decodeImg img_path out_path
          (mainParams { input := img_path, output := out_path }) now st img hdec]
    · simp [builtFile, mainParams, CliArgs.monochrome]
    · simp [builtFile, mainParams]

/-- C10 witness: the defaults theorem at the sample input. -/
theorem C10_library_vs_cli_defaults_witness :
    ({} : ConvParams).make_monochrome = true ∧
    ({} : ConvParams).modality = "OT" ∧
    (∀ i o, ({ input := i, output := o } : CliArgs).monochrome = false ∧
      ({ input := i, output := o } : CliArgs).modality = "DX") ∧
    (∃ file : DicomFile,
      (create_dicom_from_image sampleDecode "in.png" "out.dcm" {} sampleNow sampleSt).1 =
        Except.ok file ∧
      file.ds.PhotometricInterpretation = "MONOCHROME2" ∧
      file.ds.Modality = "OT") ∧
    (∃ file : DicomFile,
      (main_call sampleDecode { input := "in.png", output := "out.dcm" }
        sampleNow sampleSt).1 = Except.ok file ∧
      file.ds.PhotometricInterpretation = "RGB" ∧
      file.ds.Modality = "DX") :=
  C10_library_vs_cli_defaults sampleDecode "in.png" "out.dcm" sampleNow sampleSt
    sampleImg rfl

end ConvertImageToDicom
